import Mathlib

/-!
Verification of the SST core event-scheduling substrate (activity.h, event.h,
event.cc, link.cc) against its natural-language specification.

Shallow embedding conventions:
* `uint64_t` / `SimTime_t` values are `Nat`, with `% U64` applied exactly at
  the arithmetic sites where the C++ computation can wrap.
* `int` / `int64_t` values are `Int`; conversions to unsigned widths are
  expressed with `% 2^w` (mathematical, non-negative remainder), matching the
  C++ conversion rules.
* Pointers are modelled as `Option Nat` identifiers into explicit maps; a
  `delete` is recorded in a `freed` set so that leak/destruction claims can be
  stated.
* A call to the fatal-error sink aborts the process, so an operation that
  fatals is modelled as returning `Outcome.fatalError` carrying no successor
  state; dereferencing a null pointer is modelled as
  `Outcome.undefinedBehavior`.
-/

namespace SSTCore

/-- 2^64, the modulus of `uint64_t` / `SimTime_t` arithmetic. -/
def U64 : Nat := 2 ^ 64

/-- 2^32, the modulus of `uint32_t` arithmetic. -/
def U32 : Nat := 2 ^ 32

/-- Default priority for events, `#define EVENTPRIORITY 50` (activity.h:34). -/
def EVENTPRIORITY : Nat := 50

/-- Interpretation of a `uint64_t` value (already reduced below 2^32 by the
callers, which pass `priority_order >> 32`) as a C++ `int` (32-bit two's
complement), used by `Activity::getPriority`'s `(int)` cast. -/
def toInt32 (n : Nat) : Int :=
  if n % U32 < 2 ^ 31 then ((n % U32 : Nat) : Int) else ((n % U32 : Nat) : Int) - (U32 : Int)

/-- Embeds `SST::Activity` data members (activity.h:242-250): `delivery_time`
(SimTime_t), `priority_order` (uint64_t packing priority in the high 32 bits
and the order tag in the low 32 bits), and `queue_order` (uint64_t). -/
structure Activity where
  delivery_time : Nat
  priority_order : Nat
  queue_order : Nat
deriving DecidableEq, Repr

namespace Activity

/-- Embeds `Activity()` constructor (activity.h:55): all three fields zero. -/
def init : Activity := ⟨0, 0, 0⟩

/-- Embeds `Activity::setDeliveryTime` (activity.h:157). The `SimTime_t` argument is
assumed already reduced modulo 2^64 by the caller's arithmetic. -/
def setDeliveryTime (a : Activity) (time : Nat) : Activity :=
  { a with delivery_time := time }

/-- Embeds `Activity::getDeliveryTime` (activity.h:161). -/
def getDeliveryTime (a : Activity) : Nat := a.delivery_time

/-- Embeds `Activity::getPriority` (activity.h:165): `(int)(priority_order >> 32)`.
The shift is `/ 2^32`; the `(int)` cast is `toInt32`. -/
def getPriority (a : Activity) : Int := toInt32 (a.priority_order / U32)

/-- Embeds `Activity::setOrderTag` (activity.h:169):
`priority_order = (priority_order & 0xFFFFFFFF00000000ul) | (uint64_t)tag`.
Masking off the low 32 bits is `/ U32 * U32`; since the low bits are then
zero, the bitwise or with a value `< 2^32` is addition.  The `uint32_t`
parameter is modelled as `tag % U32`. -/
def setOrderTag (a : Activity) (tag : Nat) : Activity :=
  { a with priority_order := a.priority_order / U32 * U32 + tag % U32 }

/-- Embeds `Activity::getOrderTag` (activity.h:173): `(uint32_t)(priority_order &
0xFFFFFFFFul)`, i.e. the low 32 bits. -/
def getOrderTag (a : Activity) : Nat := a.priority_order % U32

/-- Embeds `Activity::getQueueOrder` (activity.h:177). -/
def getQueueOrder (a : Activity) : Nat := a.queue_order

/-- Embeds `Activity::setPriority` (activity.h:205):
`priority_order = (priority_order & 0x00000000FFFFFFFFul) | (priority << 32)`.
The `uint64_t` shift wraps, so `priority << 32` contributes
`priority % U32 * U32`; its low 32 bits are zero, so the or is addition. -/
def setPriority (a : Activity) (priority : Nat) : Activity :=
  { a with priority_order := priority % U32 * U32 + a.priority_order % U32 }

/-- Embeds `Activity::setQueueOrder` (activity.h:237). -/
def setQueueOrder (a : Activity) (order : Nat) : Activity :=
  { a with queue_order := order }

/-- Embeds `Activity::less<T,P,Q>::operator()` (activity.h:72-80):
three-level comparison, each level participating only when its template
parameter is set. -/
def lessTPQ (T P Q : Bool) (lhs rhs : Activity) : Bool :=
  if T && decide (lhs.delivery_time ≠ rhs.delivery_time) then
    decide (lhs.delivery_time < rhs.delivery_time)
  else if P && decide (lhs.priority_order ≠ rhs.priority_order) then
    decide (lhs.priority_order < rhs.priority_order)
  else Q && decide (lhs.queue_order < rhs.queue_order)

/-- Embeds `Activity::greater<T,P,Q>::operator()` (activity.h:120-125). -/
def greaterTPQ (T P Q : Bool) (lhs rhs : Activity) : Bool :=
  if T && decide (lhs.delivery_time ≠ rhs.delivery_time) then
    decide (lhs.delivery_time > rhs.delivery_time)
  else if P && decide (lhs.priority_order ≠ rhs.priority_order) then
    decide (lhs.priority_order > rhs.priority_order)
  else Q && decide (lhs.queue_order > rhs.queue_order)

end Activity

/-- Specification-side reading of the comparator (spec §4.1): compare only the
fields selected by `(T, P, Q)`, in the order delivery_time, then
priority_order, then queue_order; a deselected field is skipped entirely. -/
def selectedLt (T P Q : Bool) (a b : Activity) : Prop :=
  (T = true ∧ a.delivery_time < b.delivery_time) ∨
    ((T = true → a.delivery_time = b.delivery_time) ∧
      ((P = true ∧ a.priority_order < b.priority_order) ∨
        ((P = true → a.priority_order = b.priority_order) ∧
          Q = true ∧ a.queue_order < b.queue_order)))

/-- The ordering key triple of an activity. -/
def keyTriple (a : Activity) : Nat × Nat × Nat :=
  (a.delivery_time, a.priority_order, a.queue_order)

/-- Embeds `SST::Event` (event.h): an Activity plus the `delivery_info` word
(event.h:209).  `payload` models the object identity of the event (which
concrete event object a pointer refers to); `isNull` marks the `NullEvent`
subclass allocated by `Link::send_impl` when no event is supplied
(link.cc:38-52). -/
structure Event where
  act : Activity
  delivery_info : Nat
  isNull : Bool
  payload : Nat
deriving DecidableEq, Repr

namespace Event

/-- Embeds `Event()` constructor (event.h:77-88): Activity fields zeroed, then
`setPriority(EVENTPRIORITY)`; `delivery_info` zero. -/
def init (payload : Nat) : Event :=
  { act := Activity.init.setPriority EVENTPRIORITY
    delivery_info := 0
    isNull := false
    payload := payload }

/-- Embeds `NullEvent()` constructor (link.cc:41): same as `Event()`. -/
def nullEvent : Event :=
  { act := Activity.init.setPriority EVENTPRIORITY
    delivery_info := 0
    isNull := true
    payload := 0 }

/-- Embeds `Event::setDeliveryInfo(LinkId_t tag, uintptr_t delivery_info)`
(event.h:185-190): `setOrderTag(tag)` (with the `int64_t → uint32_t`
conversion of the tag, i.e. the non-negative remainder mod 2^32) and store
the delivery word. -/
def setDeliveryInfo (e : Event) (tag : Int) (delivery_info : Nat) : Event :=
  { e with act := e.act.setOrderTag (tag % (U32 : Int)).toNat
           delivery_info := delivery_info }

/-- Embeds `Activity::setDeliveryTime` lifted to events. -/
def setDeliveryTime (e : Event) (time : Nat) : Event :=
  { e with act := e.act.setDeliveryTime time }

end Event

/-- The three queue families behind the `ActivityQueue` interface.  Their
implementations (timeVortex, pollingLinkQueue.h, initQueue.h) are not part of
the sources at hand; their contents are modelled from the spec (§3.4). -/
inductive QueueKind where
  | InitQ
  | TimeVortexQ
  | PollingQ
deriving DecidableEq, Repr

/-- A queue object: its family and its contents. -/
structure Queue where
  kind : QueueKind
  items : List Event
deriving DecidableEq, Repr

/-- Modelled from the spec: stable insertion keyed by `delivery_time`
(InitQueue: "keyed by `untimed_phase`... Ordering within a phase is by
insertion order", §3.4/§4.3).  The new event goes after every event of equal
or smaller phase. -/
def insertByPhase : List Event → Event → List Event
  | [], e => [e]
  | x :: xs, e =>
    if x.act.delivery_time ≤ e.act.delivery_time then x :: insertByPhase xs e
    else e :: x :: xs

/-- Modelled from the spec: the TimeVortex keeps activities in the §4.1 total
order with `(T,P,Q) = (true,true,true)`; insertion is stable (queue_order
breaks remaining ties).  The new event goes after every event not strictly
greater than it. -/
def insertByOrder : List Event → Event → List Event
  | [], e => [e]
  | x :: xs, e =>
    if Activity.lessTPQ true true true e.act x.act then e :: x :: xs
    else x :: insertByOrder xs e

/-- Modelled from the spec: `insert` for the three queue families
(§3.4/§4.3): TimeVortex is ordered by the total order, PollingLinkQueue
appends in FIFO order, InitQueue is phase-keyed with insertion order within a
phase. -/
def Queue.insert (q : Queue) (e : Event) : Queue :=
  match q.kind with
  | .PollingQ => { q with items := q.items ++ [e] }
  | .InitQ => { q with items := insertByPhase q.items e }
  | .TimeVortexQ => { q with items := insertByOrder q.items e }

/-- Embeds `front` of a queue: the item that would be returned next. -/
def Queue.front? (q : Queue) : Option Event := q.items.head?

/-- Embeds `pop`: remove the front item. -/
def Queue.pop (q : Queue) : Queue := { q with items := q.items.tail }

/-- Embeds `empty` test. -/
def Queue.isEmpty (q : Queue) : Bool := q.items.isEmpty

/-- Embeds `Link::Type_t` (link.h): how the owning side consumes events. -/
inductive LinkType where
  | UNINITIALIZED
  | HANDLER
  | POLL
  | SYNC
deriving DecidableEq, Repr

/-- Embeds `Link::Mode_t` (link.h): the phase state machine. -/
inductive LinkMode where
  | INIT
  | RUN
  | COMPLETE
deriving DecidableEq, Repr

/-- The per-link data members of `SST::Link` (link.cc:79-103 constructor
order): `send_queue` and `pair_link` are nullable pointers modelled as
`Option Nat` ids; `current_time` is a reference to the simulation clock and
lives in the `World`; `profile_tools` stays `nullptr` in this model (observer
notification does not change link or queue state). -/
structure LinkData where
  send_queue : Option Nat
  delivery_info : Nat
  defaultTimeBase : Nat
  latency : Nat
  pair_link : Option Nat
  type : LinkType
  mode : LinkMode
  tag : Int
deriving DecidableEq, Repr

/-- Embeds `Link::Link(LinkId_t tag)` (link.cc:79-90). -/
def mkLinkWithTag (tag : Int) : LinkData :=
  { send_queue := none
    delivery_info := 0
    defaultTimeBase := 0
    latency := 1
    pair_link := none
    type := .UNINITIALIZED
    mode := .INIT
    tag := tag }

/-- Embeds `Link::Link()` (link.cc:92-103): same member initializers with
`tag(-1)`. -/
def mkLink : LinkData :=
  { send_queue := none
    delivery_info := 0
    defaultTimeBase := 0
    latency := 1
    pair_link := none
    type := .UNINITIALIZED
    mode := .INIT
    tag := -1 }

/-- Pointwise map update. -/
def upd {α : Type} (f : Nat → α) (i : Nat) (a : α) : Nat → α :=
  fun j => if j = i then a else f j

/-- The world a rank's links live in: the link objects, the heap of queue
objects (`none` = unallocated or deleted), the record of queue ids that have
been `delete`d, a fresh-id counter for `new` queues, the id of the rank's
shared TimeVortex (`Simulation_impl::getTimeVortex()`), and the
`Simulation_impl` fields the link code reads (`currentSimCycle`,
`untimed_phase`, `untimed_msg_count`). -/
structure World where
  links : Nat → LinkData
  queues : Nat → Option Queue
  freed : Nat → Bool
  nextQ : Nat
  timeVortex : Nat
  currentSimCycle : Nat
  untimed_phase : Nat
  untimed_msg_count : Nat

/-- Replace link `i`'s data. -/
def World.setLink (w : World) (i : Nat) (d : LinkData) : World :=
  { w with links := upd w.links i d }

/-- Result of a link operation: a successor state, a call into the
fatal-error sink (which aborts the process, so no successor state exists and
nothing was mutated beforehand on the paths modelled here), or a null-pointer
dereference (undefined behavior in the C++ source). -/
inductive Outcome (α : Type) where
  | ok (a : α)
  | fatalError (msg : String)
  | undefinedBehavior
deriving DecidableEq, Repr

/-- Whether an outcome is a fatal-error call. -/
def Outcome.isFatal {α : Type} : Outcome α → Bool
  | .fatalError _ => true
  | _ => false

/-- The event as stamped by `Link::send_impl` in Run mode (link.cc:293-297):
delivery time `current_time + delay + latency` (uint64 arithmetic, hence the
`% U64`) via `setDeliveryTime`, then `setDeliveryInfo(tag, delivery_info)`
with the sending link's members. -/
def sentEvent (w : World) (self delay : Nat) (e : Event) : Event :=
  (e.setDeliveryTime ((w.currentSimCycle + delay + (w.links self).latency) % U64)).setDeliveryInfo
    (w.links self).tag (w.links self).delivery_info

/-- Embeds `Link::send_impl(SimTime_t delay, Event* event)` (link.cc:275-306).
In INIT or COMPLETE mode the fatal sink is called (link.cc:279-291) and the
process aborts before any state is touched.  In RUN mode: compute the cycle,
allocate a `NullEvent` if no event was supplied (link.cc:295), stamp the
event, notify profile tools (pure observation), and `send_queue->insert`
(link.cc:305) — inserting into this link's own `send_queue` member, the
queue the pair consumes from. -/
def send_impl (w : World) (self delay : Nat) (event? : Option Event) : Outcome World :=
  match (w.links self).mode with
  | .INIT =>
    .fatalError "ERROR: Trying to send or recv from link during initialization.  Send and Recv cannot be called before setup."
  | .COMPLETE =>
    .fatalError "ERROR: Trying to call send or recv during complete phase."
  | .RUN =>
    let event :=
      match event? with
      | none => Event.nullEvent
      | some e => e
    let event := sentEvent w self delay event
    match (w.links self).send_queue with
    | none => .undefinedBehavior
    | some qid =>
      match w.queues qid with
      | none => .undefinedBehavior
      | some q => .ok { w with queues := upd w.queues qid (some (q.insert event)) }

/-- Embeds `Link::recv()` (link.cc:309-335): fatal if the link is not a
polling link (no mode check is performed); otherwise consult
`pair_link->send_queue`, and hand out the front activity when its delivery
time has been reached. -/
def recv (w : World) (self : Nat) : Outcome (Option Event × World) :=
  if (w.links self).type ≠ .POLL then
    .fatalError "Cannot call recv on a Link with an event handler installed (non-polling link."
  else
    match (w.links self).pair_link with
    | none => .undefinedBehavior
    | some pl =>
      match (w.links pl).send_queue with
      | none => .undefinedBehavior
      | some qid =>
        match w.queues qid with
        | none => .undefinedBehavior
        | some q =>
          if q.isEmpty then .ok (none, w)
          else
            match q.front? with
            | none => .ok (none, w)
            | some activity =>
              if activity.act.delivery_time ≤ w.currentSimCycle then
                .ok (some activity, { w with queues := upd w.queues qid (some q.pop) })
              else .ok (none, w)

/-- Embeds `Link::sendUntimedData(Event* data)` (link.cc:337-366): fatal in
RUN mode; lazily create an InitQueue on this link's own `send_queue`
(link.cc:349); increment the global `untimed_msg_count` (link.cc:352); stamp
`delivery_time = untimed_phase + 1` (link.cc:354) and the link's
`(tag, delivery_info)` (link.cc:356); insert (link.cc:358). -/
def sendUntimedData (w : World) (self : Nat) (data : Event) : Outcome World :=
  if (w.links self).mode = .RUN then
    .fatalError "ERROR: Trying to call sendUntimedData/sendInitData or recvUntimedData/recvInitData during the run phase."
  else
    let wq : World × Nat :=
      match (w.links self).send_queue with
      | none =>
        ({ w with
            queues := upd w.queues w.nextQ (some ⟨.InitQ, []⟩)
            links := upd w.links self { w.links self with send_queue := some w.nextQ }
            nextQ := w.nextQ + 1 },
          w.nextQ)
      | some qid => (w, qid)
    let w1 := wq.1
    let qid := wq.2
    let w2 := { w1 with untimed_msg_count := w1.untimed_msg_count + 1 }
    let data := data.setDeliveryTime ((w2.untimed_phase + 1) % U64)
    let data := data.setDeliveryInfo (w2.links self).tag (w2.links self).delivery_info
    match w2.queues qid with
    | none => .undefinedBehavior
    | some q => .ok { w2 with queues := upd w2.queues qid (some (q.insert data)) }

/-- Embeds `Link::recvUntimedData()` (link.cc:380-402): null on a missing
pair queue (explicit null check, link.cc:385); otherwise hand out the front
activity when its `delivery_time` is at most `untimed_phase`. -/
def recvUntimedData (w : World) (self : Nat) : Outcome (Option Event × World) :=
  match (w.links self).pair_link with
  | none => .undefinedBehavior
  | some pl =>
    match (w.links pl).send_queue with
    | none => .ok (none, w)
    | some qid =>
      match w.queues qid with
      | none => .undefinedBehavior
      | some q =>
        if q.isEmpty then .ok (none, w)
        else
          match q.front? with
          | none => .ok (none, w)
          | some activity =>
            if activity.act.delivery_time ≤ w.untimed_phase then
              .ok (some activity, { w with queues := upd w.queues qid (some q.pop) })
            else .ok (none, w)

/-- The queue-rewiring block of `Link::finalizeConfiguration` for a non-Sync
link with pair `p` (link.cc:142-153).  link.cc:142-145 is
`if ( nullptr == pair_link->send_queue ) { delete pair_link->send_queue;
pair_link->send_queue = nullptr; }` — the null check is inverted relative to
its own comment (link.cc:137-138), so the delete only ever runs on a null
pointer (a no-op) and the assignment re-stores null; a non-null init queue is
never released.  Then link.cc:148 installs the rank's shared TimeVortex on
the pair for a HANDLER link, and link.cc:151-153 a fresh PollingLinkQueue for
a POLL link. -/
def fcStep (w : World) (self p : Nat) : World :=
  let w1 :=
    if (w.links p).send_queue = none then
      w.setLink p { w.links p with send_queue := none }
    else w
  if (w1.links self).type = .HANDLER then
    w1.setLink p { w1.links p with send_queue := some w1.timeVortex }
  else if (w1.links self).type = .POLL then
    { (w1.setLink p { w1.links p with send_queue := some w1.nextQ }) with
        queues := upd w1.queues w1.nextQ (some ⟨.PollingQ, []⟩)
        nextQ := w1.nextQ + 1 }
  else w1

/-- Embeds `Link::finalizeConfiguration()` (link.cc:127-160), with an
explicit fuel bounding the recursion into a Sync pair (link.cc:159); fuel 2
already computes the fixpoint (see the C8 theorem).  Control flow: set
`mode = RUN` (link.cc:131), return for a SYNC link (link.cc:132-135),
otherwise rewire the pair's queue (`fcStep`) and recursively finalize the
pair when it is SYNC. -/
def finalizeConfiguration : Nat → World → Nat → World
  | 0, w, _ => w
  | fuel + 1, w, self =>
    let w1 := w.setLink self { w.links self with mode := .RUN }
    if (w1.links self).type = .SYNC then w1
    else
      match (w1.links self).pair_link with
      | none => w1
      | some p =>
        let w2 := fcStep w1 self p
        if (w2.links p).type = .SYNC then finalizeConfiguration fuel w2 p else w2

/-- The queue-teardown block of `Link::prepareForComplete` for a non-Sync
link with pair `p` (link.cc:179-181): a POLL link deletes the pair's polling
queue (link.cc:179; deleting a null pointer is a no-op), then the pair's
queue reference is cleared (link.cc:181). -/
def pcStep (w : World) (self p : Nat) : World :=
  let w1 :=
    if (w.links self).type = .POLL then
      match (w.links p).send_queue with
      | none => w
      | some qid =>
        { w with queues := upd w.queues qid none, freed := upd w.freed qid true }
    else w
  w1.setLink p { w1.links p with send_queue := none }

/-- Embeds `Link::prepareForComplete()` (link.cc:164-188) with recursion
fuel: set `mode = COMPLETE` (link.cc:168), return for a SYNC link
(link.cc:172-175), otherwise tear down the pair's queue (`pcStep`) and
recursively prepare the pair when it is SYNC (link.cc:187). -/
def prepareForComplete : Nat → World → Nat → World
  | 0, w, _ => w
  | fuel + 1, w, self =>
    let w1 := w.setLink self { w.links self with mode := .COMPLETE }
    if (w1.links self).type = .SYNC then w1
    else
      match (w1.links self).pair_link with
      | none => w1
      | some p =>
        let w2 := pcStep w1 self p
        if (w2.links p).type = .SYNC then prepareForComplete fuel w2 p else w2

/-- The links visited by a run of `finalizeConfiguration`, computed from the
`type` and `pair_link` fields only — exactly the fields that drive its
control flow and that neither `finalizeConfiguration` nor
`prepareForComplete` ever writes. -/
def fcTrace : Nat → World → Nat → List Nat
  | 0, _, _ => []
  | fuel + 1, w, self =>
    if (w.links self).type = .SYNC then [self]
    else
      match (w.links self).pair_link with
      | none => [self]
      | some p =>
        if (w.links p).type = .SYNC then self :: fcTrace fuel w p else [self]

/-- The queue `Link::recv` on link `i` consumes from:
`pair_link->send_queue` (link.cc:323), i.e. the `send_queue` member of `i`'s
pair. -/
def peerQueueId (w : World) (i : Nat) : Option Nat :=
  match (w.links i).pair_link with
  | none => none
  | some pl => (w.links pl).send_queue

/-- The event as stamped by `Link::sendUntimedData` (link.cc:354-356):
`setDeliveryTime(untimed_phase + 1)` (uint64 arithmetic) then
`setDeliveryInfo(tag, delivery_info)` with the sending link's members. -/
def untimedEvent (w : World) (i : Nat) (data : Event) : Event :=
  (data.setDeliveryTime ((w.untimed_phase + 1) % U64)).setDeliveryInfo
    (w.links i).tag (w.links i).delivery_info

/-- A world with no allocated queues and all links default-constructed. -/
def emptyWorld : World :=
  { links := fun _ => mkLink
    queues := fun _ => none
    freed := fun _ => false
    nextQ := 0
    timeVortex := 0
    currentSimCycle := 0
    untimed_phase := 0
    untimed_msg_count := 0 }

/-- Concrete Run-mode world for exercising `send_impl`: link 0 (a HANDLER
link with latency 3, tag 7, delivery word 42) sends into queue 5, and its
pair link 1 consumes from queue 5; queue 0 is the rank's TimeVortex. -/
def wRun : World :=
  { emptyWorld with
      links := upd (upd emptyWorld.links 0
          { mkLink with
              mode := .RUN, type := .HANDLER, send_queue := some 5,
              pair_link := some 1, tag := 7, delivery_info := 42, latency := 3 })
        1 { mkLink with mode := .RUN, type := .POLL, pair_link := some 0 }
      queues := upd (upd emptyWorld.queues 0 (some ⟨.TimeVortexQ, []⟩))
        5 (some ⟨.TimeVortexQ, []⟩)
      nextQ := 6
      currentSimCycle := 10 }

/-- Concrete world for `finalizeConfiguration`'s inverted null check: link 0
is a HANDLER link in Init mode whose pair (link 1) still has a non-empty
InitQueue (queue 9, holding an untimed event) attached as `send_queue`. -/
def wInitQueuePending : World :=
  { emptyWorld with
      links := upd (upd emptyWorld.links 0
          { mkLink with type := .HANDLER, pair_link := some 1 })
        1 { mkLink with pair_link := some 0, send_queue := some 9 }
      queues := upd (upd emptyWorld.queues 0 (some ⟨.TimeVortexQ, []⟩))
        9 (some ⟨.InitQ, [(Event.init 77).setDeliveryTime 1]⟩)
      nextQ := 10 }

/-- Concrete world for `recv` outside Run mode: link 0 is a Poll link still
in Init mode; its pair (link 1) has an InitQueue (queue 3) attached holding
an untimed event with delivery time 1, and the clock is 0. -/
def wPollInit : World :=
  { emptyWorld with
      links := upd (upd emptyWorld.links 0
          { mkLink with type := .POLL, mode := .INIT, pair_link := some 1 })
        1 { mkLink with pair_link := some 0, send_queue := some 3 }
      queues := upd emptyWorld.queues 3 (some ⟨.InitQ, [(Event.init 5).setDeliveryTime 1]⟩) }

/-- Concrete world for the untimed-data protocol: links 0 and 1 are paired,
in Init mode, with no queues allocated yet; link 0 carries tag 4 and delivery
word 99. -/
def wUntimed : World :=
  { emptyWorld with
      links := upd (upd emptyWorld.links 0
          { mkLink with pair_link := some 1, tag := 4, delivery_info := 99 })
        1 { mkLink with pair_link := some 0 }
      nextQ := 2 }

/-- The state of `wUntimed` after `sendUntimedData` on link 0 of the event
`Event.init 8`, with `untimed_phase` then advanced to 1 by the untimed-phase
driver. -/
def wUntimedMid : World :=
  { wUntimed with
      links := upd wUntimed.links 0
        { (wUntimed.links 0) with send_queue := some 2 }
      queues := upd wUntimed.queues 2 (some ⟨.InitQ, [untimedEvent wUntimed 0 (Event.init 8)]⟩)
      nextQ := 3
      untimed_msg_count := 1
      untimed_phase := 1 }

/-- The state of `wUntimedMid` after the untimed event has been drained. -/
def wUntimedDrained : World :=
  { wUntimedMid with queues := upd wUntimedMid.queues 2 (some ⟨.InitQ, []⟩) }

/-- Concrete world for `prepareForComplete`: link 0 is a Poll link in Run
mode whose pair (link 1) holds the polling queue (queue 4). -/
def wPollRun : World :=
  { emptyWorld with
      links := upd (upd emptyWorld.links 0
          { mkLink with type := .POLL, mode := .RUN, pair_link := some 1 })
        1 { mkLink with mode := .RUN, pair_link := some 0, send_queue := some 4 }
      queues := upd emptyWorld.queues 4 (some ⟨.PollingQ, []⟩)
      nextQ := 5 }

/-- Concrete Run-mode world whose link 0 kept the constructor's latency of 1
(never configured): it sends into queue 5, consumed by its pair link 1. -/
def wDefaultLatency : World :=
  { emptyWorld with
      links := upd (upd emptyWorld.links 0
          { mkLink with
              mode := .RUN, type := .HANDLER, send_queue := some 5,
              pair_link := some 1 })
        1 { mkLink with mode := .RUN, pair_link := some 0 }
      queues := upd emptyWorld.queues 5 (some ⟨.TimeVortexQ, []⟩)
      nextQ := 6
      currentSimCycle := 20 }

/-- Concrete world with a pair of mutually-paired SYNC links. -/
def wSyncPair : World :=
  { emptyWorld with
      links := upd (upd emptyWorld.links 0
          { mkLink with type := .SYNC, pair_link := some 1 })
        1 { mkLink with type := .SYNC, pair_link := some 0 } }

theorem upd_same {α : Type} (f : Nat → α) (i : Nat) (a : α) : upd f i a i = a := by
  simp [upd]

theorem upd_ne {α : Type} (f : Nat → α) (i j : Nat) (a : α) (h : j ≠ i) :
    upd f i a j = f j := by
  simp [upd, h]


/-- The comparator `lessTPQ T P Q` decides exactly the selected-fields
comparison. -/
theorem lessTPQ_iff_selectedLt (T P Q : Bool) (a b : Activity) :
    Activity.lessTPQ T P Q a b = true ↔ selectedLt T P Q a b := by
  unfold Activity.lessTPQ selectedLt
  cases T <;> cases P <;> cases Q <;>
    by_cases h1 : a.delivery_time = b.delivery_time <;>
    by_cases h2 : a.priority_order = b.priority_order <;>
    simp [h1, h2]

/-- C2: the comparator `less<true,true,true>` holds exactly when the key
triple `(delivery_time, priority_order, queue_order)` is lexicographically
smaller; on activities with distinct triples it is trichotomous and
asymmetric, and it is transitive (a strict total order on distinct triples);
and for arbitrary `(T,P,Q)` the comparator compares exactly the selected
fields, in the order delivery_time, priority_order, queue_order. -/
theorem less_is_lex_strict_total_order :
    (∀ a b : Activity, Activity.lessTPQ true true true a b = true ↔
      (a.delivery_time < b.delivery_time ∨
        (a.delivery_time = b.delivery_time ∧
          (a.priority_order < b.priority_order ∨
            (a.priority_order = b.priority_order ∧ a.queue_order < b.queue_order))))) ∧
    (∀ a b : Activity, keyTriple a ≠ keyTriple b →
      (Activity.lessTPQ true true true a b = true ∨
        Activity.lessTPQ true true true b a = true) ∧
      ¬(Activity.lessTPQ true true true a b = true ∧
        Activity.lessTPQ true true true b a = true)) ∧
    (∀ a b c : Activity, Activity.lessTPQ true true true a b = true →
      Activity.lessTPQ true true true b c = true →
      Activity.lessTPQ true true true a c = true) ∧
    (∀ (T P Q : Bool) (a b : Activity),
      Activity.lessTPQ T P Q a b = true ↔ selectedLt T P Q a b) := by
  have hlex : ∀ a b : Activity, Activity.lessTPQ true true true a b = true ↔
      (a.delivery_time < b.delivery_time ∨
        (a.delivery_time = b.delivery_time ∧
          (a.priority_order < b.priority_order ∨
            (a.priority_order = b.priority_order ∧ a.queue_order < b.queue_order)))) := by
    intro a b
    rw [lessTPQ_iff_selectedLt]
    unfold selectedLt
    constructor
    · rintro (⟨-, h⟩ | ⟨ht, (⟨-, h⟩ | ⟨hp, -, h⟩)⟩)
      · exact Or.inl h
      · exact Or.inr ⟨ht rfl, Or.inl h⟩
      · exact Or.inr ⟨ht rfl, Or.inr ⟨hp rfl, h⟩⟩
    · rintro (h | ⟨ht, (h | ⟨hp, h⟩)⟩)
      · exact Or.inl ⟨rfl, h⟩
      · exact Or.inr ⟨fun _ => ht, Or.inl ⟨rfl, h⟩⟩
      · exact Or.inr ⟨fun _ => ht, Or.inr ⟨fun _ => hp, rfl, h⟩⟩
  refine ⟨hlex, ?_, ?_, lessTPQ_iff_selectedLt⟩
  · intro a b hne
    have hne' : a.delivery_time ≠ b.delivery_time ∨ a.priority_order ≠ b.priority_order ∨
        a.queue_order ≠ b.queue_order := by
      by_contra hc
      push_neg at hc
      exact hne (by simp only [keyTriple, hc.1, hc.2.1, hc.2.2])
    constructor
    · rw [hlex, hlex]; omega
    · rw [not_and, hlex, hlex]; omega
  · intro a b c hab hbc
    rw [hlex] at hab hbc ⊢
    omega

/-- Witness for `less_is_lex_strict_total_order`: trichotomy evaluated at two
concrete activities with distinct triples. -/
theorem less_is_lex_strict_total_order_witness :
    keyTriple ⟨10, 7, 3⟩ ≠ keyTriple ⟨10, 7, 4⟩ ∧
      (Activity.lessTPQ true true true ⟨10, 7, 3⟩ ⟨10, 7, 4⟩ = true ∨
        Activity.lessTPQ true true true ⟨10, 7, 4⟩ ⟨10, 7, 3⟩ = true) :=
  ⟨by decide, (less_is_lex_strict_total_order.2.1 ⟨10, 7, 3⟩ ⟨10, 7, 4⟩ (by decide)).1⟩

/-- C9 counterexample: `setPriority` takes a `uint64_t`; at `p = 2^32` the
shift `p << 32` wraps to zero, so `getPriority` afterwards returns 0, not
`p`.  This refutes the claim as stated for "every priority value p". -/
theorem setPriority_large_value_counterexample :
    (Activity.init.setPriority (2 ^ 32)).getPriority ≠ ((2 : Int) ^ 32) := by decide

/-- C9 amended: for `p < 2^31` (the int-representable priorities, covering
all the well-known priority classes), `setPriority p; getPriority()` returns
`p`; for every `p`, `setPriority` leaves the order tag untouched (it writes
only the high 32-bit half); and symmetrically `setOrderTag t; getOrderTag()`
returns `t` for `t < 2^32` (the full `uint32_t` range of the parameter) while
never perturbing the priority. -/
theorem setPriority_setOrderTag_independent (a : Activity) (p t : Nat) :
    (p < 2 ^ 31 → (a.setPriority p).getPriority = (p : Int)) ∧
    (a.setPriority p).getOrderTag = a.getOrderTag ∧
    (t < 2 ^ 32 → (a.setOrderTag t).getOrderTag = t) ∧
    (a.setOrderTag t).getPriority = a.getPriority := by
  have hU32 : U32 = 2 ^ 32 := rfl
  have h32pos : 0 < U32 := by decide
  refine ⟨?_, ?_, ?_, ?_⟩
  · intro hp
    have hpU : p < U32 := by
      have : (2 : Nat) ^ 31 < 2 ^ 32 := by norm_num
      omega
    unfold Activity.setPriority Activity.getPriority toInt32
    simp only [Nat.mod_eq_of_lt hpU]
    have hdiv : (p * U32 + a.priority_order % U32) / U32 = p := by
      rw [Nat.mul_comm, Nat.mul_add_div h32pos]
      have : a.priority_order % U32 / U32 = 0 :=
        Nat.div_eq_of_lt (Nat.mod_lt _ h32pos)
      omega
    rw [hdiv, Nat.mod_eq_of_lt hpU]
    simp only [if_pos hp]
  · unfold Activity.setPriority Activity.getOrderTag
    simp only
    conv_lhs => rw [Nat.add_comm, Nat.add_mul_mod_self_right]
    exact Nat.mod_mod_of_dvd _ dvd_rfl
  · intro ht
    have htU : t < U32 := by rw [hU32]; exact ht
    unfold Activity.setOrderTag Activity.getOrderTag
    simp only [Nat.mod_eq_of_lt htU]
    rw [Nat.add_comm, Nat.add_mul_mod_self_right, Nat.mod_eq_of_lt htU]
  · unfold Activity.setOrderTag Activity.getPriority
    simp only
    have hdiv : (a.priority_order / U32 * U32 + t % U32) / U32 = a.priority_order / U32 := by
      rw [Nat.mul_comm, Nat.mul_add_div h32pos]
      have : t % U32 / U32 = 0 := Nat.div_eq_of_lt (Nat.mod_lt _ h32pos)
      omega
    rw [hdiv]

/-- Witness for `setPriority_setOrderTag_independent` at the event priority
class 50 and order tag 3, starting from an activity with nonzero fields. -/
theorem setPriority_setOrderTag_independent_witness :
    ((50 : Nat) < 2 ^ 31 ∧
      ((Activity.mk 5 4294967299 9).setPriority 50).getPriority = (50 : Int)) ∧
    ((Activity.mk 5 4294967299 9).setPriority 50).getOrderTag =
      (Activity.mk 5 4294967299 9).getOrderTag ∧
    ((3 : Nat) < 2 ^ 32 ∧
      ((Activity.mk 5 4294967299 9).setOrderTag 3).getOrderTag = 3) ∧
    ((Activity.mk 5 4294967299 9).setOrderTag 3).getPriority =
      (Activity.mk 5 4294967299 9).getPriority :=
  ⟨⟨by decide,
      (setPriority_setOrderTag_independent (Activity.mk 5 4294967299 9) 50 3).1 (by decide)⟩,
    (setPriority_setOrderTag_independent (Activity.mk 5 4294967299 9) 50 3).2.1,
    ⟨by decide,
      (setPriority_setOrderTag_independent (Activity.mk 5 4294967299 9) 50 3).2.2.1 (by decide)⟩,
    (setPriority_setOrderTag_independent (Activity.mk 5 4294967299 9) 50 3).2.2.2⟩

theorem setLink_links_self (w : World) (i : Nat) (d : LinkData) :
    (w.setLink i d).links i = d := upd_same _ _ _

theorem setLink_links_ne (w : World) (i j : Nat) (d : LinkData) (h : j ≠ i) :
    (w.setLink i d).links j = w.links j := upd_ne _ _ _ _ h

theorem mem_insertByPhase (l : List Event) (e : Event) : e ∈ insertByPhase l e := by
  induction l with
  | nil => simp [insertByPhase]
  | cons x xs ih =>
    unfold insertByPhase
    split
    · exact List.mem_cons_of_mem _ ih
    · exact List.mem_cons_self _ _

theorem mem_insertByOrder (l : List Event) (e : Event) : e ∈ insertByOrder l e := by
  induction l with
  | nil => simp [insertByOrder]
  | cons x xs ih =>
    unfold insertByOrder
    split
    · exact List.mem_cons_self _ _
    · exact List.mem_cons_of_mem _ ih

theorem mem_insert (q : Queue) (e : Event) : e ∈ (q.insert e).items := by
  cases hk : q.kind <;>
    simp [Queue.insert, hk, mem_insertByPhase, mem_insertByOrder]

theorem setDeliveryInfo_getOrderTag (e : Event) (t : Int) (d : Nat)
    (h0 : 0 ≤ t) (h1 : t < (U32 : Int)) :
    (e.setDeliveryInfo t d).act.getOrderTag = t.toNat := by
  unfold Event.setDeliveryInfo Activity.setOrderTag Activity.getOrderTag
  simp only
  rw [Int.emod_eq_of_lt h0 h1]
  have htn : t.toNat < U32 := by omega
  rw [Nat.add_comm, Nat.add_mul_mod_self_right, Nat.mod_mod_of_dvd _ dvd_rfl,
    Nat.mod_eq_of_lt htn]

/-- C5: in Init or Complete mode (i.e. any mode other than Run), `send`
calls the fatal sink (link.cc:279-291), which aborts the process: no
successor state exists, so no event (neither the supplied one nor a
NullEvent) is inserted into any send_queue and no delivery fields are
stamped. -/
theorem send_outside_run_is_fatal (w : World) (i delay : Nat) (event? : Option Event)
    (h : (w.links i).mode ≠ .RUN) :
    (send_impl w i delay event?).isFatal = true ∧
      ∀ w', send_impl w i delay event? ≠ .ok w' := by
  cases hm : (w.links i).mode with
  | INIT => refine ⟨?_, ?_⟩ <;> simp [send_impl, hm, Outcome.isFatal]
  | COMPLETE => refine ⟨?_, ?_⟩ <;> simp [send_impl, hm, Outcome.isFatal]
  | RUN => exact absurd hm h

/-- Witness for `send_outside_run_is_fatal` on a default-constructed link
(mode Init). -/
theorem send_outside_run_is_fatal_witness :
    (emptyWorld.links 0).mode ≠ LinkMode.RUN ∧
      (send_impl emptyWorld 0 3 (some (Event.init 1))).isFatal = true :=
  ⟨by decide,
    (send_outside_run_is_fatal emptyWorld 0 3 (some (Event.init 1)) (by decide)).1⟩

theorem recv_poll_not_fatal (w : World) (i : Nat) (h : (w.links i).type = .POLL) :
    (recv w i).isFatal = false := by
  unfold recv
  rw [if_neg (by simp [h])]
  rcases hpl : (w.links i).pair_link with _ | pl
  · simp [Outcome.isFatal]
  · rcases hsq : (w.links pl).send_queue with _ | qid
    · simp [hsq, Outcome.isFatal]
    · rcases hq : w.queues qid with _ | q
      · simp [hsq, hq, Outcome.isFatal]
      · by_cases he : q.isEmpty
        · simp [hsq, hq, he, Outcome.isFatal]
        · rcases hf : q.front? with _ | a
          · simp [hsq, hq, he, hf, Outcome.isFatal]
          · by_cases ht : a.act.delivery_time ≤ w.currentSimCycle
            · simp [hsq, hq, he, hf, ht, Outcome.isFatal]
            · simp [hsq, hq, he, hf, ht, Outcome.isFatal]

/-- C4 counterexample: `wPollInit`'s link 0 is a Poll-kind link whose mode is
Init, yet `recv` on it does not call the fatal sink — Link::recv checks only
the link type (link.cc:314) and never the mode, so it proceeds to consult the
pair's queue. -/
theorem recv_poll_init_mode_not_fatal_counterexample :
    (wPollInit.links 0).mode = .INIT ∧ (wPollInit.links 0).type = .POLL ∧
      (recv wPollInit 0).isFatal = false := by decide

/-- C4 amended: `recv` calls the fatal sink exactly when the link's kind is
not Poll; the mode is never examined, so on a Poll-kind link in Init (or
Complete) mode `recv` simply consults the pair's queue as it would in Run
mode (undefined behavior if the pair has no queue attached). -/
theorem recv_fatal_iff_non_poll (w : World) (i : Nat) :
    (recv w i).isFatal = true ↔ (w.links i).type ≠ .POLL := by
  by_cases h : (w.links i).type = .POLL
  · simp only [h, ne_eq, not_true_eq_false, iff_false]
    rw [recv_poll_not_fatal w i h]
    simp
  · simp only [ne_eq, h, not_false_eq_true, iff_true]
    unfold recv
    rw [if_pos h]
    rfl

/-- C3 (code-bug evidence): evaluated at `wInitQueuePending`, where the pair
link 1 still has the non-empty InitQueue 9 attached as its `send_queue`,
`finalizeConfiguration` on link 0 leaves queue 9 allocated and never freed
while overwriting the pair's queue pointer with the TimeVortex: the inverted
null check at link.cc:142 (`if ( nullptr == pair_link->send_queue )`)
releases nothing, contrary to the code's own comment (link.cc:137-138). -/
theorem finalize_configuration_leaks_attached_init_queue :
    (finalizeConfiguration 2 wInitQueuePending 0).freed 9 = false ∧
    (finalizeConfiguration 2 wInitQueuePending 0).queues 9 =
      some ⟨.InitQ, [(Event.init 77).setDeliveryTime 1]⟩ ∧
    ((finalizeConfiguration 2 wInitQueuePending 0).links 1).send_queue =
      some wInitQueuePending.timeVortex ∧
    ((finalizeConfiguration 2 wInitQueuePending 0).links 0).mode = .RUN := by decide

theorem send_impl_run_eq (w : World) (i qid delay : Nat) (q : Queue) (e : Event)
    (hmode : (w.links i).mode = .RUN)
    (hq : (w.links i).send_queue = some qid)
    (halloc : w.queues qid = some q) :
    send_impl w i delay (some e) =
      .ok { w with queues := upd w.queues qid (some (q.insert (sentEvent w i delay e))) } := by
  unfold send_impl
  rw [hmode]
  simp only [hq, halloc]

/-- C1: in Run mode, `L.send(delay, e)` stamps `e` with delivery time
`t0 + delay + L.latency` (t0 the current clock), with `L`'s tag as the order
tag and `L`'s `delivery_info`, and inserts the stamped event (the same event
object, witnessed by the unchanged payload) into the queue the pair link
consumes from — `Link::recv` on the pair reads `pair_link->send_queue`
(link.cc:323), which is exactly the `send_queue` member the send inserted
into (link.cc:305). -/
theorem send_run_delivers_to_peer_queue (w : World) (i p qid delay : Nat) (q : Queue)
    (e : Event)
    (hmode : (w.links i).mode = .RUN)
    (hq : (w.links i).send_queue = some qid)
    (halloc : w.queues qid = some q)
    (hpair : (w.links p).pair_link = some i)
    (hov : w.currentSimCycle + delay + (w.links i).latency < U64)
    (htag0 : 0 ≤ (w.links i).tag) (htag1 : (w.links i).tag < (U32 : Int)) :
    ∃ w', send_impl w i delay (some e) = .ok w' ∧
      (sentEvent w i delay e).act.getDeliveryTime =
        w.currentSimCycle + delay + (w.links i).latency ∧
      (sentEvent w i delay e).act.getOrderTag = ((w.links i).tag).toNat ∧
      (sentEvent w i delay e).delivery_info = (w.links i).delivery_info ∧
      (sentEvent w i delay e).payload = e.payload ∧
      peerQueueId w' p = some qid ∧
      ∃ q', w'.queues qid = some q' ∧ sentEvent w i delay e ∈ q'.items := by
  refine ⟨{ w with queues := upd w.queues qid (some (q.insert (sentEvent w i delay e))) },
    send_impl_run_eq w i qid delay q e hmode hq halloc, ?_, ?_, rfl, rfl, ?_, ?_⟩
  · show (w.currentSimCycle + delay + (w.links i).latency) % U64 =
      w.currentSimCycle + delay + (w.links i).latency
    exact Nat.mod_eq_of_lt hov
  · exact setDeliveryInfo_getOrderTag _ _ _ htag0 htag1
  · show peerQueueId _ p = some qid
    unfold peerQueueId
    simp only [hpair, hq]
  · exact ⟨q.insert (sentEvent w i delay e), upd_same _ _ _, mem_insert _ _⟩

/-- Witness for `send_run_delivers_to_peer_queue` at `wRun` (clock 10,
latency 3, delay 4, tag 7, delivery word 42). -/
theorem send_run_delivers_to_peer_queue_witness :
    ∃ w', send_impl wRun 0 4 (some (Event.init 3)) = .ok w' ∧
      (sentEvent wRun 0 4 (Event.init 3)).act.getDeliveryTime =
        wRun.currentSimCycle + 4 + (wRun.links 0).latency ∧
      (sentEvent wRun 0 4 (Event.init 3)).act.getOrderTag = ((wRun.links 0).tag).toNat ∧
      (sentEvent wRun 0 4 (Event.init 3)).delivery_info = (wRun.links 0).delivery_info ∧
      (sentEvent wRun 0 4 (Event.init 3)).payload = (Event.init 3).payload ∧
      peerQueueId w' 1 = some 5 ∧
      ∃ q', w'.queues 5 = some q' ∧ sentEvent wRun 0 4 (Event.init 3) ∈ q'.items :=
  send_run_delivers_to_peer_queue wRun 0 1 5 4 ⟨.TimeVortexQ, []⟩ (Event.init 3)
    (by decide) (by decide) (by decide) (by decide) (by decide) (by decide) (by decide)

/-- C10: both Link constructors start with latency 1 (not 0), mode Init,
kind Uninitialized, delivery_info 0, null send_queue, null pair_link,
default_time_base 0, and the default constructor uses tag −1; consequently a
Run-mode send on a link whose latency was never configured (still the
constructor's value 1) already delivers at `t0 + delay + 1`, one cycle of
latency beyond the requested delay. -/
theorem link_constructor_defaults :
    (∀ t : Int,
      (mkLinkWithTag t).latency = 1 ∧ (mkLinkWithTag t).mode = .INIT ∧
      (mkLinkWithTag t).type = .UNINITIALIZED ∧ (mkLinkWithTag t).delivery_info = 0 ∧
      (mkLinkWithTag t).send_queue = none ∧ (mkLinkWithTag t).pair_link = none ∧
      (mkLinkWithTag t).defaultTimeBase = 0 ∧ (mkLinkWithTag t).tag = t) ∧
    mkLink = mkLinkWithTag (-1) ∧
    (∀ (w : World) (i qid delay : Nat) (q : Queue) (e : Event),
      (w.links i).mode = .RUN → (w.links i).send_queue = some qid →
      w.queues qid = some q → (w.links i).latency = mkLink.latency →
      w.currentSimCycle + delay + 1 < U64 →
      ∃ w', send_impl w i delay (some e) = .ok w' ∧
        (sentEvent w i delay e).act.getDeliveryTime = w.currentSimCycle + delay + 1) := by
  refine ⟨fun t => ⟨rfl, rfl, rfl, rfl, rfl, rfl, rfl, rfl⟩, rfl, ?_⟩
  intro w i qid delay q e hmode hq halloc hlat hov
  have hlat1 : (w.links i).latency = 1 := hlat
  refine ⟨{ w with queues := upd w.queues qid (some (q.insert (sentEvent w i delay e))) },
    send_impl_run_eq w i qid delay q e hmode hq halloc, ?_⟩
  show (w.currentSimCycle + delay + (w.links i).latency) % U64 =
    w.currentSimCycle + delay + 1
  rw [hlat1]
  exact Nat.mod_eq_of_lt hov

/-- Witness for `link_constructor_defaults` at tag 11 and at
`wDefaultLatency` (clock 20, delay 6, never-configured latency). -/
theorem link_constructor_defaults_witness :
    (mkLinkWithTag 11).latency = 1 ∧ (mkLinkWithTag 11).tag = 11 ∧
      mkLink.tag = -1 ∧
      ∃ w', send_impl wDefaultLatency 0 6 (some (Event.init 2)) = .ok w' ∧
        (sentEvent wDefaultLatency 0 6 (Event.init 2)).act.getDeliveryTime =
          wDefaultLatency.currentSimCycle + 6 + 1 :=
  ⟨(link_constructor_defaults.1 11).1, (link_constructor_defaults.1 11).2.2.2.2.2.2.2,
    by decide,
    link_constructor_defaults.2.2 wDefaultLatency 0 5 6 ⟨.TimeVortexQ, []⟩ (Event.init 2)
      (by decide) (by decide) (by decide) (by decide) (by decide)⟩

/-- C6: outside Run mode, `sendUntimedData` lazily creates an InitQueue when
the link has none, increments the global `untimed_msg_count`, stamps the
event with `delivery_time = untimed_phase + 1` and the link's
`(tag, delivery_info)`, and inserts it; on the receiving side,
`recvUntimedData` returns the queued event exactly when `untimed_phase` has
advanced to at least its delivery time, and a call once the event is drained
returns null. -/
theorem untimed_send_recv_protocol :
    (∀ (w : World) (i : Nat) (data : Event),
      (w.links i).mode ≠ .RUN →
      (w.links i).send_queue = none →
      0 ≤ (w.links i).tag → (w.links i).tag < (U32 : Int) →
      w.untimed_phase + 1 < U64 →
      ∃ w', sendUntimedData w i data = .ok w' ∧
        (w'.links i).send_queue = some w.nextQ ∧
        w'.queues w.nextQ = some ⟨.InitQ, [untimedEvent w i data]⟩ ∧
        w'.untimed_msg_count = w.untimed_msg_count + 1 ∧
        (untimedEvent w i data).act.getDeliveryTime = w.untimed_phase + 1 ∧
        (untimedEvent w i data).act.getOrderTag = ((w.links i).tag).toNat ∧
        (untimedEvent w i data).delivery_info = (w.links i).delivery_info ∧
        (untimedEvent w i data).payload = data.payload) ∧
    (∀ (w : World) (r i qid : Nat) (e : Event),
      (w.links r).pair_link = some i →
      (w.links i).send_queue = some qid →
      w.queues qid = some ⟨.InitQ, [e]⟩ →
      (e.act.delivery_time ≤ w.untimed_phase →
        recvUntimedData w r =
          .ok (some e, { w with queues := upd w.queues qid (some ⟨.InitQ, []⟩) })) ∧
      (w.untimed_phase < e.act.delivery_time →
        recvUntimedData w r = .ok (none, w))) ∧
    (∀ (w : World) (r i qid : Nat),
      (w.links r).pair_link = some i →
      (w.links i).send_queue = some qid →
      w.queues qid = some ⟨.InitQ, []⟩ →
      recvUntimedData w r = .ok (none, w)) := by
  refine ⟨?_, ?_, ?_⟩
  · intro w i data hmode hq htag0 htag1 hov
    refine ⟨{ w with
        links := upd w.links i { w.links i with send_queue := some w.nextQ }
        queues := upd (upd w.queues w.nextQ (some ⟨.InitQ, []⟩)) w.nextQ
          (some ⟨.InitQ, [untimedEvent w i data]⟩)
        nextQ := w.nextQ + 1
        untimed_msg_count := w.untimed_msg_count + 1 }, ?_, ?_, ?_, rfl, ?_, ?_, rfl, rfl⟩
    · unfold sendUntimedData
      rw [if_neg hmode]
      simp only [hq]
      simp [upd, untimedEvent, Queue.insert, insertByPhase]
    · simp [upd_same]
    · simp [upd_same]
    · show (w.untimed_phase + 1) % U64 = w.untimed_phase + 1
      exact Nat.mod_eq_of_lt hov
    · exact setDeliveryInfo_getOrderTag _ _ _ htag0 htag1
  · intro w r i qid e hpair hq halloc
    constructor
    · intro hle
      unfold recvUntimedData
      simp only [hpair, hq, halloc, Queue.isEmpty, Queue.front?, Queue.pop,
        List.isEmpty_cons, List.head?_cons]
      rw [if_pos hle]
      rfl
    · intro hlt
      unfold recvUntimedData
      simp only [hpair, hq, halloc, Queue.isEmpty, Queue.front?, Queue.pop,
        List.isEmpty_cons, List.head?_cons]
      rw [if_neg (not_le.mpr hlt)]
      simp
  · intro w r i qid hpair hq halloc
    unfold recvUntimedData
    simp only [hpair, hq, halloc, Queue.isEmpty, List.isEmpty_nil]
    rfl

/-- Witness for `untimed_send_recv_protocol`: the send at phase 0 on
`wUntimed`, the successful receive at phase 1 on `wUntimedMid`, and the null
receive on `wUntimedDrained`. -/
theorem untimed_send_recv_protocol_witness :
    (∃ w', sendUntimedData wUntimed 0 (Event.init 8) = .ok w' ∧
      (w'.links 0).send_queue = some wUntimed.nextQ ∧
      w'.queues wUntimed.nextQ = some ⟨.InitQ, [untimedEvent wUntimed 0 (Event.init 8)]⟩ ∧
      w'.untimed_msg_count = wUntimed.untimed_msg_count + 1 ∧
      (untimedEvent wUntimed 0 (Event.init 8)).act.getDeliveryTime =
        wUntimed.untimed_phase + 1 ∧
      (untimedEvent wUntimed 0 (Event.init 8)).act.getOrderTag =
        ((wUntimed.links 0).tag).toNat ∧
      (untimedEvent wUntimed 0 (Event.init 8)).delivery_info =
        (wUntimed.links 0).delivery_info ∧
      (untimedEvent wUntimed 0 (Event.init 8)).payload = (Event.init 8).payload) ∧
    recvUntimedData wUntimedMid 1 =
      .ok (some (untimedEvent wUntimed 0 (Event.init 8)),
        { wUntimedMid with queues := upd wUntimedMid.queues 2 (some ⟨.InitQ, []⟩) }) ∧
    recvUntimedData wUntimedDrained 1 = .ok (none, wUntimedDrained) :=
  ⟨untimed_send_recv_protocol.1 wUntimed 0 (Event.init 8)
      (by decide) (by decide) (by decide) (by decide) (by decide),
    (untimed_send_recv_protocol.2.1 wUntimedMid 1 0 2
        (untimedEvent wUntimed 0 (Event.init 8))
        (by decide) (by decide) (by decide)).1 (by decide),
    untimed_send_recv_protocol.2.2 wUntimedDrained 1 0 2
      (by decide) (by decide) (by decide)⟩

theorem pc_sync_unfold (w : World) (i fuel : Nat) (h : (w.links i).type = .SYNC) :
    prepareForComplete (fuel + 1) w i =
      w.setLink i { w.links i with mode := .COMPLETE } := by
  simp only [prepareForComplete]
  rw [if_pos (by simp [World.setLink, upd_same, h])]

theorem pc_unfold_nonsync (w : World) (i p fuel : Nat)
    (hty : (w.links i).type ≠ .SYNC) (hpair : (w.links i).pair_link = some p) :
    prepareForComplete (fuel + 1) w i =
      (if ((pcStep (w.setLink i { w.links i with mode := .COMPLETE }) i p).links p).type
          = .SYNC then
        prepareForComplete fuel
          (pcStep (w.setLink i { w.links i with mode := .COMPLETE }) i p) p
      else pcStep (w.setLink i { w.links i with mode := .COMPLETE }) i p) := by
  simp only [prepareForComplete]
  have h1 : ((w.setLink i { w.links i with mode := .COMPLETE }).links i).type
      = (w.links i).type := by simp [World.setLink, upd_same]
  have h2 : ((w.setLink i { w.links i with mode := .COMPLETE }).links i).pair_link
      = (w.links i).pair_link := by simp [World.setLink, upd_same]
  rw [if_neg (by rw [h1]; exact hty), h2, hpair]

theorem pcStep_links_p_sq (w : World) (i p : Nat) :
    ((pcStep w i p).links p).send_queue = none := by
  simp only [pcStep]
  simp [World.setLink, upd_same]

theorem pcStep_links_pres (w : World) (i p j : Nat) :
    ((pcStep w i p).links j).type = (w.links j).type ∧
    ((pcStep w i p).links j).pair_link = (w.links j).pair_link ∧
    ((pcStep w i p).links j).mode = (w.links j).mode := by
  simp only [pcStep]
  by_cases hj : j = p
  · subst hj
    split
    · split <;> simp [World.setLink, upd_same]
    · simp [World.setLink, upd_same]
  · split
    · split <;> simp [World.setLink, upd, hj]
    · simp [World.setLink, upd, hj]

theorem pcStep_freed_queues (w : World) (i p qid : Nat)
    (hty : (w.links i).type = .POLL) (hq : (w.links p).send_queue = some qid) :
    (pcStep w i p).freed qid = true ∧ (pcStep w i p).queues qid = none := by
  simp only [pcStep]
  rw [if_pos hty, hq]
  exact ⟨upd_same _ _ _, upd_same _ _ _⟩

theorem setLink_record_pres (w : World) (i j : Nat) (d : LinkData)
    (hsq : d.send_queue = (w.links i).send_queue)
    (hty : d.type = (w.links i).type) :
    ((w.setLink i d).links j).send_queue = (w.links j).send_queue ∧
    ((w.setLink i d).links j).type = (w.links j).type := by
  by_cases hj : j = i
  · subst hj; rw [setLink_links_self]; exact ⟨hsq, hty⟩
  · rw [setLink_links_ne _ _ _ _ hj]; exact ⟨rfl, rfl⟩

/-- C7: after `prepareForComplete` on a non-Sync link, the pair's
`send_queue` is null and the link's mode is Complete; when the link's kind is
Poll, the pair's polling queue object has been destroyed (freed and
deallocated); and a Sync-kind link changes nothing but its own mode — in
particular no queue wiring. -/
theorem prepare_for_complete_spec :
    (∀ (w : World) (i p : Nat),
      (w.links i).type ≠ .SYNC → (w.links i).pair_link = some p →
      ((prepareForComplete 2 w i).links p).send_queue = none ∧
      ((prepareForComplete 2 w i).links i).mode = .COMPLETE ∧
      (∀ qid, (w.links i).type = .POLL → (w.links p).send_queue = some qid →
        (prepareForComplete 2 w i).freed qid = true ∧
        (prepareForComplete 2 w i).queues qid = none)) ∧
    (∀ (w : World) (i fuel : Nat), (w.links i).type = .SYNC →
      prepareForComplete (fuel + 1) w i =
        w.setLink i { w.links i with mode := .COMPLETE }) := by
  refine ⟨?_, pc_sync_unfold⟩
  intro w i p hty hpair
  have h2eq : (2 : Nat) = 1 + 1 := rfl
  rw [h2eq, pc_unfold_nonsync w i p 1 hty hpair]
  have h1ty : ((w.setLink i { w.links i with mode := .COMPLETE }).links i).type
      = (w.links i).type := by simp [World.setLink, upd_same]
  have h1mode : ((w.setLink i { w.links i with mode := .COMPLETE }).links i).mode
      = .COMPLETE := by simp [World.setLink, upd_same]
  have h1sqp : ((w.setLink i { w.links i with mode := .COMPLETE }).links p).send_queue
      = (w.links p).send_queue := by
    by_cases hip : p = i
    · subst hip; simp [World.setLink, upd_same]
    · simp [World.setLink, upd_ne _ _ _ _ hip]
  set w1 := w.setLink i { w.links i with mode := .COMPLETE } with hw1
  set w2 := pcStep w1 i p with hw2
  have hw2sq : (w2.links p).send_queue = none := pcStep_links_p_sq w1 i p
  have hw2mode : (w2.links i).mode = .COMPLETE := by
    rw [(pcStep_links_pres w1 i p i).2.2, h1mode]
  have hw2type_p : (w2.links p).type = (w.links p).type := by
    rw [(pcStep_links_pres w1 i p p).1]
    by_cases hip : p = i
    · subst hip; exact h1ty
    · rw [hw1, setLink_links_ne _ _ _ _ hip]
  have hfreed : ∀ qid, (w.links i).type = .POLL → (w.links p).send_queue = some qid →
      w2.freed qid = true ∧ w2.queues qid = none := by
    intro qid hpoll hq
    exact pcStep_freed_queues w1 i p qid (by rw [h1ty]; exact hpoll)
      (by rw [h1sqp]; exact hq)
  by_cases hsync : (w2.links p).type = .SYNC
  · have hip : i ≠ p := by
      intro hipeq
      exact hty (by rw [hipeq, ← hw2type_p, hsync])
    rw [if_pos hsync, pc_sync_unfold w2 p 0 hsync]
    refine ⟨?_, ?_, ?_⟩
    · rw [setLink_links_self]
      exact hw2sq
    · rw [setLink_links_ne _ _ _ _ hip]
      exact hw2mode
    · intro qid hpoll hq
      exact hfreed qid hpoll hq
  · rw [if_neg hsync]
    exact ⟨hw2sq, hw2mode, hfreed⟩

/-- Witness for `prepare_for_complete_spec` at `wPollRun` (Poll link 0,
pair 1 holding polling queue 4). -/
theorem prepare_for_complete_spec_witness :
    ((prepareForComplete 2 wPollRun 0).links 1).send_queue = none ∧
      ((prepareForComplete 2 wPollRun 0).links 0).mode = .COMPLETE ∧
      (prepareForComplete 2 wPollRun 0).freed 4 = true ∧
      (prepareForComplete 2 wPollRun 0).queues 4 = none := by
  have h := prepare_for_complete_spec.1 wPollRun 0 1 (by decide) (by decide)
  exact ⟨h.1, h.2.1, (h.2.2 4 (by decide) (by decide)).1,
    (h.2.2 4 (by decide) (by decide)).2⟩

theorem fc_sync_unfold (w : World) (i fuel : Nat) (h : (w.links i).type = .SYNC) :
    finalizeConfiguration (fuel + 1) w i =
      w.setLink i { w.links i with mode := .RUN } := by
  simp only [finalizeConfiguration]
  rw [if_pos (by simp [World.setLink, upd_same, h])]

theorem fc_unfold_nopair (w : World) (i fuel : Nat)
    (hty : (w.links i).type ≠ .SYNC) (hpair : (w.links i).pair_link = none) :
    finalizeConfiguration (fuel + 1) w i =
      w.setLink i { w.links i with mode := .RUN } := by
  simp only [finalizeConfiguration]
  have h1 : ((w.setLink i { w.links i with mode := .RUN }).links i).type
      = (w.links i).type := by simp [World.setLink, upd_same]
  have h2 : ((w.setLink i { w.links i with mode := .RUN }).links i).pair_link
      = (w.links i).pair_link := by simp [World.setLink, upd_same]
  rw [if_neg (by rw [h1]; exact hty), h2, hpair]

theorem fc_unfold_nonsync (w : World) (i p fuel : Nat)
    (hty : (w.links i).type ≠ .SYNC) (hpair : (w.links i).pair_link = some p) :
    finalizeConfiguration (fuel + 1) w i =
      (if ((fcStep (w.setLink i { w.links i with mode := .RUN }) i p).links p).type
          = .SYNC then
        finalizeConfiguration fuel
          (fcStep (w.setLink i { w.links i with mode := .RUN }) i p) p
      else fcStep (w.setLink i { w.links i with mode := .RUN }) i p) := by
  simp only [finalizeConfiguration]
  have h1 : ((w.setLink i { w.links i with mode := .RUN }).links i).type
      = (w.links i).type := by simp [World.setLink, upd_same]
  have h2 : ((w.setLink i { w.links i with mode := .RUN }).links i).pair_link
      = (w.links i).pair_link := by simp [World.setLink, upd_same]
  rw [if_neg (by rw [h1]; exact hty), h2, hpair]

theorem fcStep_links_pres (w : World) (i p j : Nat) :
    ((fcStep w i p).links j).type = (w.links j).type ∧
    ((fcStep w i p).links j).pair_link = (w.links j).pair_link := by
  simp only [fcStep]
  by_cases hj : j = p
  · subst hj
    repeat' split
    all_goals simp [World.setLink, upd_same]
  · repeat' split
    all_goals simp [World.setLink, upd, hj]

/-- Embeds no new code: `fc_stable` is the termination statement — one extra
unit of fuel beyond 2 never changes the result, because the only recursive
call targets a SYNC pair and a SYNC link returns without recursing. -/
theorem fc_stable (w : World) (i n : Nat) :
    finalizeConfiguration (n + 2) w i = finalizeConfiguration 2 w i := by
  have h2eq : (2 : Nat) = 1 + 1 := rfl
  by_cases hty : (w.links i).type = .SYNC
  · rw [show n + 2 = (n + 1) + 1 from rfl, fc_sync_unfold w i (n + 1) hty, h2eq,
      fc_sync_unfold w i 1 hty]
  · rcases hpair : (w.links i).pair_link with _ | p
    · rw [show n + 2 = (n + 1) + 1 from rfl, fc_unfold_nopair w i (n + 1) hty hpair, h2eq,
        fc_unfold_nopair w i 1 hty hpair]
    · rw [show n + 2 = (n + 1) + 1 from rfl, fc_unfold_nonsync w i p (n + 1) hty hpair,
        h2eq, fc_unfold_nonsync w i p 1 hty hpair]
      by_cases hsync :
          ((fcStep (w.setLink i { w.links i with mode := .RUN }) i p).links p).type = .SYNC
      · rw [if_pos hsync, if_pos hsync,
          fc_sync_unfold _ p n hsync, fc_sync_unfold _ p 0 hsync]
      · rw [if_neg hsync, if_neg hsync]

theorem setLink_mode_pres (w : World) (i j : Nat) (m : LinkMode) :
    ((w.setLink i { w.links i with mode := m }).links j).type = (w.links j).type ∧
    ((w.setLink i { w.links i with mode := m }).links j).pair_link
      = (w.links j).pair_link := by
  by_cases hj : j = i
  · subst hj; rw [setLink_links_self]; exact ⟨rfl, rfl⟩
  · rw [setLink_links_ne _ _ _ _ hj]; exact ⟨rfl, rfl⟩

theorem fc_preserves_type_pair (m : Nat) :
    ∀ (w : World) (i j : Nat),
      ((finalizeConfiguration m w i).links j).type = (w.links j).type ∧
      ((finalizeConfiguration m w i).links j).pair_link = (w.links j).pair_link := by
  induction m with
  | zero => intro w i j; exact ⟨rfl, rfl⟩
  | succ m ih =>
    intro w i j
    by_cases hty : (w.links i).type = .SYNC
    · rw [fc_sync_unfold w i m hty]
      exact setLink_mode_pres w i j .RUN
    · rcases hpair : (w.links i).pair_link with _ | p
      · rw [fc_unfold_nopair w i m hty hpair]
        exact setLink_mode_pres w i j .RUN
      · rw [fc_unfold_nonsync w i p m hty hpair]
        have hstep :
            ((fcStep (w.setLink i { w.links i with mode := .RUN }) i p).links j).type
              = (w.links j).type ∧
            ((fcStep (w.setLink i { w.links i with mode := .RUN }) i p).links j).pair_link
              = (w.links j).pair_link := by
          have ha := fcStep_links_pres (w.setLink i { w.links i with mode := .RUN }) i p j
          have hb := setLink_mode_pres w i j .RUN
          exact ⟨ha.1.trans hb.1, ha.2.trans hb.2⟩
        by_cases hsync :
            ((fcStep (w.setLink i { w.links i with mode := .RUN }) i p).links p).type
              = .SYNC
        · rw [if_pos hsync]
          have hrec := ih (fcStep (w.setLink i { w.links i with mode := .RUN }) i p) p j
          exact ⟨hrec.1.trans hstep.1, hrec.2.trans hstep.2⟩
        · rw [if_neg hsync]
          exact hstep

theorem fcTrace_congr (n : Nat) :
    ∀ (w v : World) (i : Nat),
      (∀ j, (v.links j).type = (w.links j).type ∧
        (v.links j).pair_link = (w.links j).pair_link) →
      fcTrace n v i = fcTrace n w i := by
  induction n with
  | zero => intro w v i _; rfl
  | succ n ih =>
    intro w v i hjs
    simp only [fcTrace]
    rw [(hjs i).1, (hjs i).2]
    by_cases hty : (w.links i).type = .SYNC
    · rw [if_pos hty, if_pos hty]
    · rw [if_neg hty, if_neg hty]
      rcases hpair : (w.links i).pair_link with _ | p
      · rfl
      · show (if (v.links p).type = LinkType.SYNC then i :: fcTrace n v p else [i]) =
          (if (w.links p).type = LinkType.SYNC then i :: fcTrace n w p else [i])
        rw [(hjs p).1]
        by_cases hp : (w.links p).type = .SYNC
        · rw [if_pos hp, if_pos hp, ih w v p hjs]
        · rw [if_neg hp, if_neg hp]

/-- C8: `finalizeConfiguration` terminates for every link-pair configuration
— fuel 2 already computes the fixpoint for any world (including a
self-paired link and mutually-paired or mutual-Sync pairs), because the
recursion into `pair_link` happens only when the pair's kind is Sync and a
Sync-kind link returns without recursing; and the traversal is idempotent:
running `finalizeConfiguration` never changes any link's `type` or
`pair_link`, so a repeated invocation visits exactly the same links. -/
theorem finalize_configuration_terminates :
    (∀ (w : World) (i n : Nat),
      finalizeConfiguration (n + 2) w i = finalizeConfiguration 2 w i) ∧
    (∀ (w : World) (i fuel : Nat), (w.links i).type = .SYNC →
      finalizeConfiguration (fuel + 1) w i =
        w.setLink i { w.links i with mode := .RUN }) ∧
    (∀ (w : World) (i n m : Nat),
      fcTrace n (finalizeConfiguration m w i) i = fcTrace n w i) :=
  ⟨fc_stable, fc_sync_unfold, fun w i n m =>
    fcTrace_congr n w (finalizeConfiguration m w i) i
      (fun j => fc_preserves_type_pair m w i j)⟩

/-- Witness for `finalize_configuration_terminates` on the mutual-Sync pair
`wSyncPair`. -/
theorem finalize_configuration_terminates_witness :
    (wSyncPair.links 0).type = LinkType.SYNC ∧
      finalizeConfiguration (0 + 1) wSyncPair 0 =
        wSyncPair.setLink 0 { wSyncPair.links 0 with mode := .RUN } :=
  ⟨by decide, finalize_configuration_terminates.2.1 wSyncPair 0 0 (by decide)⟩

end SSTCore
